import Mathlib

/-!
Verification of the priscilla message broker (Go sources `priscilla.go` and
the dispatcher file) against its natural-language specification.

The Go code is shallowly embedded: the dispatcher goroutine becomes a pure
step function over an explicit state record plus an output record describing
the observable effects of one loop iteration (values sent on the engagement
reply channel, envelopes written to connection encoders, goroutines spawned,
fatal exits, and whether the loop body ever exits the `for` loop).  The
`crypto/rand` source is an oracle: a list of byte buffers consumed by
successive `generateId` calls.  `regexp.Compile` from the Go standard
library is an oracle parameter `compile : String → Option Regex`.

Bodies that live in a repository file not provided with the sources
(`query.validate`, `commandBlock.engageChk`, `commandBlock.registerChk`) are
modelled from the specification and carry a doc comment saying so; every
claim settled here depends on those only through the pass/fail outcome the
claim itself hypothesises.
-/

/-- Compiled regular expression, kept abstract as the pattern it was
compiled from; the claims below never depend on matching semantics, only on
whether `regexp.Compile` succeeded. -/
structure Regex where
  pattern : String
deriving DecidableEq, Repr

/-- Go `commandBlock` (fields `Action`, `Id`, `Type`, `Data`, `Array`,
`Options`).  `ctype` embeds the Go field `Type`. -/
structure commandBlock where
  action : String
  id : String
  ctype : String
  data : String
  array : List String
  options : List String
deriving DecidableEq, Repr

/-- Go `messageBlock` payload (chat text plus originating room). -/
structure messageBlock where
  text : String
  room : String
deriving DecidableEq, Repr

/-- Go `query` envelope (fields `Type`, `Source`, `To`, `Message`,
`Command`); the two payload pointers become `Option`s.  `toDest` embeds the
Go field `To` (`to` is a reserved token in Lean). -/
structure query where
  qtype : String
  source : String
  toDest : String
  message : Option messageBlock
  command : Option commandBlock
deriving DecidableEq, Repr

/-- Go `helpInfo` (fields `helpCmd`, `helpMsg`, `noPrefix`, `mention`). -/
structure helpInfo where
  helpCmd : String
  helpMsg : String
  noPrefixFlag : Bool
  mentionFlag : Bool
deriving DecidableEq, Repr

/-- Go `activeResponderConfig`: compiled pattern, owning connection id,
responder-assigned id, fallthrough flag, help command and help text. -/
structure activeResponderConfig where
  regex : Regex
  source : String
  id : String
  matchNext : Bool
  helpCmd : String
  help : String
deriving DecidableEq, Repr

/- ### generateId and the random-source model -/

/-- The sixteen lowercase hexadecimal characters, in the order Go's
`%x` verb uses them. -/
def hexChars : List Char :=
  "0123456789abcdef".toList

/-- One hexadecimal digit of a byte, as printed by Go's `%x`. -/
def hexDigit (n : Nat) : Char :=
  hexChars.getD (n % 16) '0'

/-- The two characters `%x` prints for one byte. -/
def hexByteChars (n : Nat) : List Char :=
  [hexDigit (n / 16), hexDigit n]

/-- The 8-byte buffer produced by `b := make([]byte, 8)` followed by
`io.ReadFull(rand.Reader, b)` whose outcome was the byte list `read`:
the buffer starts zeroed, `ReadFull` fills as many leading bytes as the
source delivered, and the returned error is ignored by the Go code, so a
short or failed read simply leaves trailing zero bytes. -/
def readBuffer (read : List Nat) : List Nat :=
  (read.take 8 ++ List.replicate (8 - read.length) 0).map (· % 256)

/-- Go `generateId`: format the 8-byte buffer with `fmt.Sprintf("%x", b)`,
two lowercase hex digits per byte. -/
def generateId (read : List Nat) : String :=
  String.mk (((readBuffer read).map hexByteChars).flatten)

theorem hexDigit_mem (n : Nat) : hexDigit n ∈ hexChars := by
  have h : ∀ k : Nat, k < 16 → hexChars.getD k '0' ∈ hexChars := by decide
  exact h (n % 16) (Nat.mod_lt _ (by norm_num))

theorem readBuffer_length (read : List Nat) : (readBuffer read).length = 8 := by
  simp only [readBuffer, List.length_map, List.length_append, List.length_take,
    List.length_replicate]
  omega

theorem generateId_length (read : List Nat) : (generateId read).length = 16 := by
  have hlen : ∀ l : List Nat, ((l.map hexByteChars).flatten).length = 2 * l.length := by
    intro l
    induction l with
    | nil => simp
    | cons a t ih => simp [hexByteChars, ih]; omega
  have : (generateId read).length = ((readBuffer read).map hexByteChars).flatten.length := rfl
  rw [this, hlen, readBuffer_length]

theorem generateId_chars_hex (read : List Nat) :
    ∀ c ∈ (generateId read).toList, c ∈ hexChars := by
  intro c hc
  have hc' : c ∈ ((readBuffer read).map hexByteChars).flatten := hc
  rw [List.mem_flatten] at hc'
  obtain ⟨l, hl, hcl⟩ := hc'
  rw [List.mem_map] at hl
  obtain ⟨n, _, rfl⟩ := hl
  simp only [hexByteChars, List.mem_cons, List.mem_singleton] at hcl
  rcases hcl with rfl | rfl | h
  · exact hexDigit_mem _
  · exact hexDigit_mem _
  · cases h

theorem generateId_ne_empty (read : List Nat) : generateId read ≠ "" := by
  intro h
  have := generateId_length read
  rw [h] at this
  simp at this

/- ### The modelled validation gates

The bodies of `query.validate`, `commandBlock.engageChk` and
`commandBlock.registerChk` live in a repository file that is not among the
provided sources (only their call sites are); they are modelled from the
specification.  Every claim settled below depends on them only through the
pass/fail outcome that the claim itself hypothesises. -/

/-- Modelled from the spec: `query.validate` is not among the provided
sources.  Spec §3: an envelope has `type ∈ {message, command}` and
"carries exactly one of `message`/`command`, consistent with its `type`". -/
def validateQ (q : query) : Bool :=
  match q.qtype with
  | "message" => q.message.isSome && q.command.isNone
  | "command" => q.command.isSome && q.message.isNone
  | _ => false

/-- Modelled from the spec: `commandBlock.engageChk` is not among the
provided sources.  Spec §4.1: engagement "validates a shared-secret
credential"; we model the credential as the command's data field compared
against the configured secret, yielding a failure reason on mismatch. -/
def engageChk (cmd : commandBlock) (_source secret : String) : Except String Unit :=
  if cmd.data = secret then Except.ok () else Except.error "invalid credentials"

/-- Modelled from the spec: `commandBlock.registerChk` is not among the
provided sources.  Spec §4.3: a register command "must supply exactly the
fields required (pattern in `data`, responder id in `id`, help-trigger
command and help text as the two elements of `array`, classification in
`type` ∈ \x7bprefix, noprefix, mention, unhandled\x7d)". -/
def registerChk (cmd : commandBlock) : Except String Unit :=
  if cmd.data = "" then Except.error "missing pattern"
  else if cmd.id = "" then Except.error "missing responder id"
  else if cmd.array.length ≠ 2 then Except.error "missing help fields"
  else if cmd.ctype = "prefix" ∨ cmd.ctype = "noprefix" ∨ cmd.ctype = "mention" ∨
      cmd.ctype = "unhandled" then Except.ok ()
  else Except.error "invalid responder type"

/- ### The connection table

Go's `connMap map[string]*json.Encoder` becomes an association list from
connection id to an encoder identity (a `Nat` standing for the
`*json.Encoder` pointer); only lookup/insert/delete semantics matter. -/

/-- Go map lookup `connMap[id]`. -/
def mapLookup : List (String × Nat) → String → Option Nat
  | [], _ => none
  | p :: t, k => if p.1 = k then some p.2 else mapLookup t k

/-- Go map assignment `connMap[id] = enc` (binds `k`, replacing any
previous binding, leaving all other bindings unchanged). -/
def mapInsert (m : List (String × Nat)) (k : String) (v : Nat) :
    List (String × Nat) :=
  (k, v) :: m.filter (fun p => p.1 != k)

/-- Go `delete(connMap, id)`. -/
def mapErase (m : List (String × Nat)) (k : String) : List (String × Nat) :=
  m.filter (fun p => p.1 != k)

theorem mapLookup_filter_ne (m : List (String × Nat)) (k k' : String)
    (h : k' ≠ k) :
    mapLookup (m.filter (fun p => p.1 != k)) k' = mapLookup m k' := by
  induction m with
  | nil => rfl
  | cons p t ih =>
    by_cases h2 : p.1 = k
    · have hpk : (p.1 != k) = false := by simp [bne, h2]
      rw [List.filter_cons, hpk]
      simp only [if_false, Bool.false_eq_true]
      rw [ih]
      have hne : ¬ p.1 = k' := by rw [h2]; exact fun he => h he.symm
      simp only [mapLookup, hne, if_false]
    · have hpk : (p.1 != k) = true := by simp [bne_iff_ne]; exact h2
      rw [List.filter_cons, hpk]
      simp only [if_true]
      simp only [mapLookup]
      rw [ih]

theorem mapLookup_insert_self (m : List (String × Nat)) (k : String) (v : Nat) :
    mapLookup (mapInsert m k v) k = some v := by
  simp [mapLookup, mapInsert]

theorem mapLookup_insert_ne (m : List (String × Nat)) (k k' : String) (v : Nat)
    (h : k' ≠ k) : mapLookup (mapInsert m k v) k' = mapLookup m k' := by
  rw [mapInsert]
  have hne : ¬ k = k' := fun he => h he.symm
  simp only [mapLookup, hne, if_false]
  exact mapLookup_filter_ne m k k' h

/- ### The id-collision loop

Go lines 55-63 of the dispatcher: if no source id was supplied, generate
one; then `for _, ok := connMap[id]; ok; _, ok = connMap[id] { id =
generateId() }`.  The random source is an oracle list of byte buffers;
`none` models the (probability-zero with a real random source) event that
the oracle ran dry while every candidate still collided, i.e. the loop not
having terminated yet. -/

def collisionLoop (m : List (String × Nat)) (bufs : List (List Nat))
    (id : String) : Option (String × List (List Nat)) :=
  if mapLookup m id = none then some (id, bufs)
  else
    match bufs with
    | [] => none
    | b :: rest => collisionLoop m rest (generateId b)

/-- The id chosen by the engage branch: Go lines 52-63 (`id := q.Source`,
generate when empty, then keep regenerating until no collision). -/
def chooseId (m : List (String × Nat)) (source : String)
    (bufs : List (List Nat)) : Option (String × List (List Nat)) :=
  if source = "" then
    match bufs with
    | [] => none
    | b :: rest => collisionLoop m rest (generateId b)
  else collisionLoop m bufs source

theorem collisionLoop_fresh (m : List (String × Nat)) :
    ∀ (bufs : List (List Nat)) (id0 id : String) (rest : List (List Nat)),
      collisionLoop m bufs id0 = some (id, rest) → mapLookup m id = none := by
  intro bufs
  induction bufs with
  | nil =>
    intro id0 id rest h
    unfold collisionLoop at h
    by_cases hl : mapLookup m id0 = none
    · simp [hl] at h
      rw [← h.1]
      exact hl
    · simp [hl] at h
  | cons b t ih =>
    intro id0 id rest h
    unfold collisionLoop at h
    by_cases hl : mapLookup m id0 = none
    · simp [hl] at h
      rw [← h.1]
      exact hl
    · simp [hl] at h
      exact ih _ _ _ h

theorem collisionLoop_generated (m : List (String × Nat)) :
    ∀ (bufs : List (List Nat)) (id0 id : String) (rest : List (List Nat)),
      collisionLoop m bufs id0 = some (id, rest) →
      id = id0 ∨ ∃ b, id = generateId b := by
  intro bufs
  induction bufs with
  | nil =>
    intro id0 id rest h
    unfold collisionLoop at h
    by_cases hl : mapLookup m id0 = none
    · simp [hl] at h
      exact Or.inl h.1.symm
    · simp [hl] at h
  | cons b t ih =>
    intro id0 id rest h
    unfold collisionLoop at h
    by_cases hl : mapLookup m id0 = none
    · simp [hl] at h
      exact Or.inl h.1.symm
    · simp [hl] at h
      rcases ih _ _ _ h with heq | hgen
      · exact Or.inr ⟨b, heq⟩
      · exact Or.inr hgen

theorem chooseId_fresh (m : List (String × Nat)) (source : String)
    (bufs : List (List Nat)) (id : String) (rest : List (List Nat))
    (h : chooseId m source bufs = some (id, rest)) : mapLookup m id = none := by
  unfold chooseId at h
  by_cases hs : source = ""
  · simp [hs] at h
    match bufs, h with
    | b :: t, h => exact collisionLoop_fresh m _ _ _ _ h
  · simp [hs] at h
    exact collisionLoop_fresh m _ _ _ _ h

/-- When no id was supplied or the supplied id collides, the chosen id is
a freshly generated one. -/
theorem chooseId_generated (m : List (String × Nat)) (source : String)
    (bufs : List (List Nat)) (id : String) (rest : List (List Nat))
    (h : chooseId m source bufs = some (id, rest))
    (hcase : source = "" ∨ mapLookup m source ≠ none) :
    ∃ b, id = generateId b := by
  unfold chooseId at h
  by_cases hs : source = ""
  · simp [hs] at h
    match bufs, h with
    | b :: t, h =>
      rcases collisionLoop_generated m _ _ _ _ h with heq | hgen
      · exact ⟨b, heq⟩
      · exact hgen
  · simp [hs] at h
    rcases hcase with hc | hc
    · exact absurd hc hs
    · unfold collisionLoop at h
      simp [hc] at h
      match bufs, h with
      | b :: t, h =>
        rcases collisionLoop_generated m _ _ _ _ h with heq | hgen
        · exact ⟨b, heq⟩
        · exact hgen

/- ### The dispatcher actor

The dispatcher goroutine (`dispatcher(request chan *dispatcherRequest,
quitChan chan bool)`) becomes a step function over an explicit state: the
local `connMap` together with the global active-responder buckets and the
global `help` list that the register branch mutates.  One iteration of the
`for` loop consumes one request and produces the next state, the remaining
random-source oracle, and an output record of its observable effects. -/

/-- Go `dispatcherRequest` (fields `Query`, `Encoder`, `EngageResp`); the
encoder pointer becomes an optional encoder identity, and the one-shot
reply channel is represented by the `engageResp` field of the step
output. -/
structure dispatcherRequest where
  Query : query
  Encoder : Option Nat
deriving DecidableEq, Repr

/-- A goroutine spawned by the dispatcher body (`go cmd.handleCommand(...)`
or `go q.Message.handleMessage(...)`); the bodies are external
collaborators per spec §1, so only the fact of the hand-off is recorded. -/
inductive spawnTask where
  | handleCommand (source : String) (cmd : commandBlock)
  | handleMessage (source : String) (msg : Option messageBlock)
deriving DecidableEq, Repr

/-- What the control flow of one loop-body execution does afterwards:
`next` covers both `continue` and falling off the end of the body (next
iteration of `for`), `exitLoop` would be a `break`/`return` leaving the
loop and reaching the `quitChan <- true` statement after it. -/
inductive stepControl where
  | next
  | exitLoop
deriving DecidableEq, Repr

/-- Observable effects of one dispatcher loop iteration. -/
structure stepOut where
  engageResp : Option String
  writes : List (Nat × query)
  spawned : List spawnTask
  fatal : Bool
  control : stepControl
deriving DecidableEq, Repr

/-- The effect-free outcome (log-and-continue paths). -/
def noOut : stepOut :=
  { engageResp := none, writes := [], spawned := [], fatal := false,
    control := stepControl.next }

/-- Dispatcher-owned mutable state: the local `connMap` plus the global
registries the register branch appends to (`list.List` becomes a Lean list,
`PushBack` an append at the end). -/
structure dispatcherState where
  connMap : List (String × Nat)
  prefixAResponders : List activeResponderConfig
  noPrefixAResponders : List activeResponderConfig
  mentionAResponders : List activeResponderConfig
  unhandledAResponders : List activeResponderConfig
  helpList : List helpInfo
deriving DecidableEq, Repr

/-- State at dispatcher start, as far as the dispatcher's own mutations
are concerned: empty connection table and empty active buckets. -/
def initialState : dispatcherState :=
  { connMap := [], prefixAResponders := [], noPrefixAResponders := [],
    mentionAResponders := [], unhandledAResponders := [], helpList := [] }

/-- The `proceed` reply the engage branch writes back (Go lines 77-85):
`Type "command"`, `Source "server"`, `To` and command data both the
assigned id. -/
def proceedQuery (id : String) : query :=
  { qtype := "command", source := "server", toDest := id, message := none,
    command := some { action := "proceed", id := "", ctype := "", data := id,
                      array := [], options := [] } }

/-- The `terminate` reply written on a failed engagement (Go lines 91-99):
command data is the failure reason `err.Error()`. -/
def terminateQuery (dest errMsg : String) : query :=
  { qtype := "command", source := "server", toDest := dest, message := none,
    command := some { action := "terminate", id := "", ctype := "",
                      data := errMsg, array := [], options := [] } }

/-- One iteration of the dispatcher loop (Go dispatcher lines 32-169),
with `compile` standing for `regexp.Compile` and `secret` for
`conf.Secret`.  The `chooseId … = none` case models the id-collision retry
loop not having terminated (impossible with an unbounded random source):
the iteration is then still in flight, so no effect is recorded.
`cmd.array.getD` stands for the Go index expressions `cmd.Array[0]` and
`cmd.Array[1]`, which `registerChk` has already guaranteed to exist. -/
def dispatchStep (compile : String → Option Regex) (secret : String)
    (s : dispatcherState) (bufs : List (List Nat)) (req : dispatcherRequest) :
    dispatcherState × List (List Nat) × stepOut :=
  let q := req.Query
  if validateQ q = false then (s, bufs, noOut)
  else if q.qtype = "command" then
    match q.command with
    | none => (s, bufs, noOut)
    | some cmd =>
      if cmd.action = "engage" then
        match req.Encoder with
        | none => (s, bufs, { noOut with fatal := true })
        | some enc =>
          match engageChk cmd q.source secret with
          | Except.ok _ =>
            match chooseId s.connMap q.source bufs with
            | none => (s, bufs, noOut)
            | some (id, rest) =>
              ({ s with connMap := mapInsert s.connMap id enc }, rest,
                { noOut with engageResp := some id,
                             writes := [(enc, proceedQuery id)] })
          | Except.error e =>
            (s, bufs,
              { noOut with engageResp := some "",
                           writes := [(enc, terminateQuery q.source e)] })
      else if cmd.action = "disengage" then
        (if q.source ≠ "" then { s with connMap := mapErase s.connMap q.source }
         else s, bufs, noOut)
      else if cmd.action = "register" then
        match registerChk cmd with
        | Except.error _ => (s, bufs, noOut)
        | Except.ok _ =>
          match compile cmd.data with
          | none => (s, bufs, noOut)
          | some rg =>
            let ar : activeResponderConfig :=
              { regex := rg, source := q.source, id := cmd.id,
                matchNext := cmd.options.contains "fallthrough",
                helpCmd := cmd.array.getD 0 "", help := cmd.array.getD 1 "" }
            let hm : helpInfo :=
              { helpCmd := ar.helpCmd, helpMsg := ar.help,
                noPrefixFlag := false, mentionFlag := false }
            if cmd.ctype = "prefix" then
              ({ s with helpList := s.helpList ++ [hm],
                        prefixAResponders := s.prefixAResponders ++ [ar] },
                bufs, noOut)
            else if cmd.ctype = "noprefix" then
              ({ s with
                  helpList := s.helpList ++ [{ hm with noPrefixFlag := true }],
                  noPrefixAResponders := s.noPrefixAResponders ++ [ar] },
                bufs, noOut)
            else if cmd.ctype = "mention" then
              ({ s with
                  helpList := s.helpList ++ [{ hm with mentionFlag := true }],
                  mentionAResponders := s.mentionAResponders ++ [ar] },
                bufs, noOut)
            else if cmd.ctype = "unhandled" then
              ({ s with
                  unhandledAResponders := s.unhandledAResponders ++ [ar] },
                bufs, noOut)
            else (s, bufs, noOut)
      else
        (s, bufs,
          { noOut with spawned := [spawnTask.handleCommand q.source cmd] })
  else if q.qtype = "message" then
    if q.toDest ≠ "" ∧ q.toDest ≠ "server" then
      match mapLookup s.connMap q.toDest with
      | some enc => (s, bufs, { noOut with writes := [(enc, q)] })
      | none => (s, bufs, noOut)
    else
      (s, bufs,
        { noOut with spawned := [spawnTask.handleMessage q.source q.message] })
  else (s, bufs, noOut)

/-- Execution of the dispatcher loop on a finite prefix of the request
stream.  The boolean result records whether control left the `for` loop
and reached the `quitChan <- true` send after it: an empty remaining
stream leaves the loop blocked on `<-request`, a fatal branch terminates
the whole process (`logger.Error.Fatal` calls `os.Exit`), and only a
`stepControl.exitLoop` outcome would reach the send. -/
def dispatcherRun (compile : String → Option Regex) (secret : String) :
    dispatcherState → List (List Nat) → List dispatcherRequest →
    dispatcherState × Bool
  | s, _, [] => (s, false)
  | s, bufs, r :: rest =>
    let t := dispatchStep compile secret s bufs r
    if t.2.2.fatal then (t.1, false)
    else
      match t.2.2.control with
      | stepControl.exitLoop => (t.1, true)
      | stepControl.next => dispatcherRun compile secret t.1 t.2.1 rest

/- ### The per-connection read-loop policy -/

/-- What `serve` does with one decoded post-handshake envelope: forward it
into the dispatcher channel (paired with the connection's encoder) or drop
it and keep reading. -/
inductive serveAction where
  | forward (q : query)
  | drop
deriving DecidableEq, Repr

/-- Action of an optional command payload. -/
def cmdOptAction : Option commandBlock → String
  | some c => c.action
  | none => ""

/-- The Go field access `q.Command.Action`; the `none` case is unreachable
whenever the access is guarded by `q.Type == "command"` on a validated
envelope. -/
def cmdAction (q : query) : String :=
  cmdOptAction q.command

/-- Post-handshake per-envelope policy of `serve` (priscilla.go lines
374-414): validate, overwrite the client-supplied source with the id
assigned at engagement, apply the adapter/responder boundary policy, and
either forward the envelope to the dispatcher channel or `continue`
without forwarding.  Every branch modelled here continues the read loop;
only a decode end-of-stream (outside this function) breaks it. -/
def serveFilter (isAdapter : Bool) (id : String) (q0 : query) : serveAction :=
  if validateQ q0 = false then serveAction.drop
  else
    let q1 := { q0 with source := id }
    if isAdapter then
      let q2 := if q1.qtype ≠ "command" ∨ cmdAction q1 ≠ "info"
                then { q1 with toDest := "" } else q1
      if q2.qtype = "command" ∧ cmdAction q2 = "register" then serveAction.drop
      else serveAction.forward q2
    else if q1.toDest = "" then serveAction.drop
    else if q1.qtype = "message" ∧ q1.toDest = "server" then serveAction.drop
    else serveAction.forward q1

/- ### Startup: the passive responder configuration compiler

`main` (priscilla.go lines 155-270) compiles the help keyword and every
passive responder; any fault calls `logger.Error.Fatal`, which terminates
the process, modelled as `none`.  The bootstrap around it (flag parsing,
YAML reading, logging, sockets) is an excluded collaborator per spec §1,
so the model starts from the in-memory configuration record.  The derived
`substitute`/`roomParam` argument-template maps (lines 218-229) need the
matching semantics of the Go regexp library and no claim mentions them, so
they are not carried in the compiled record. -/

/-- Go `passiveResponderConfig` (configuration fields only).  `matchPats`
embeds the Go field `Match` (`match` is a reserved token in Lean) and
`noPrefixFlag` the field `NoPrefix`. -/
structure passiveResponderConfig where
  name : String
  matchPats : List String
  mentionMatch : List String
  noPrefixFlag : Bool
  fallThrough : Bool
  cmd : String
  args : List String
  help : String
  helpCmds : List String
  helpMentionCmds : List String
deriving DecidableEq, Repr

/-- A passive responder after startup filled its `regex`/`mRegex`
fields. -/
structure compiledPassive where
  pconf : passiveResponderConfig
  regex : List Regex
  mRegex : List Regex
deriving DecidableEq, Repr

/-- The registries populated at startup: the three passive buckets that
`main` creates (`unhandledPResponders` is declared but never initialized
or filled) and the help list. -/
structure startupState where
  prefixPResponders : List compiledPassive
  noPrefixPResponders : List compiledPassive
  mentionPResponders : List compiledPassive
  helpList : List helpInfo
deriving DecidableEq, Repr

def emptyStartup : startupState :=
  { prefixPResponders := [], noPrefixPResponders := [],
    mentionPResponders := [], helpList := [] }

/-- The Go loops `for _, pattern := range pr.Match { regexp.Compile … }`:
compile each pattern in order, `logger.Error.Fatal` (here `none`) on the
first failure. -/
def compilePatterns (compile : String → Option Regex) :
    List String → Option (List Regex)
  | [] => some []
  | p :: rest =>
    match compile p with
    | none => none
    | some r =>
      match compilePatterns compile rest with
      | none => none
      | some rs => some (r :: rs)

/-- Processing of one passive responder by the startup loop (priscilla.go
lines 183-270), faithful to the order of the fatal checks and of the
bucket/help insertions. -/
def startupStep (compile : String → Option Regex) (st : startupState)
    (pr : passiveResponderConfig) : Option startupState :=
  if pr.matchPats.length = 0 then none
  else
    match compilePatterns compile pr.matchPats with
    | none => none
    | some regexes =>
      match compilePatterns compile pr.mentionMatch with
      | none => none
      | some mRegexes =>
        if regexes.length = 0 then none
        else if pr.cmd = "" then none
        else
          let pc : compiledPassive :=
            { pconf := pr, regex := regexes, mRegex := mRegexes }
          let st1 :=
            if pr.noPrefixFlag then
              { st with noPrefixPResponders := st.noPrefixPResponders ++ [pc] }
            else
              { st with prefixPResponders := st.prefixPResponders ++ [pc] }
          let st2 :=
            if mRegexes.length ≠ 0 then
              { st1 with mentionPResponders := st1.mentionPResponders ++ [pc] }
            else st1
          if pr.help = "" ∨ pr.helpCmds.length = 0 then none
          else
            let st3 :=
              { st2 with helpList := st2.helpList ++
                  pr.helpCmds.map (fun c =>
                    ({ helpCmd := c, helpMsg := pr.help,
                       noPrefixFlag := pr.noPrefixFlag,
                       mentionFlag := false } : helpInfo)) }
            some
              { st3 with helpList := st3.helpList ++
                  pr.helpMentionCmds.map (fun c =>
                    ({ helpCmd := c, helpMsg := pr.help,
                       noPrefixFlag := false, mentionFlag := true } : helpInfo)) }

/-- The startup-relevant slice of the Go `config` record: the help
keyword (`Help`), the shared secret, and the passive responder list. -/
structure config where
  Help : String
  Secret : String
  Responders : List passiveResponderConfig
deriving DecidableEq, Repr

/-- The pattern `main` compiles for the help command, after defaulting an
empty keyword to "help" (priscilla.go lines 155-159). -/
def helpPattern (helpKw : String) : String :=
  "^" ++ (if helpKw = "" then "help" else helpKw) ++ "\\s*(\\w)*"

/-- Startup from a loaded configuration: compile the help pattern, then
fold the responder loop; `none` is a fatal process exit. -/
def startupAll (compile : String → Option Regex) (c : config) :
    Option startupState :=
  match compile (helpPattern c.Help) with
  | none => none
  | some _ => List.foldlM (startupStep compile) emptyStartup c.Responders

/-- A chosen id is never the empty string: it is either the (non-empty)
requested source id or a 16-character generated id. -/
theorem chooseId_ne_empty (m : List (String × Nat)) (source : String)
    (bufs : List (List Nat)) (id : String) (rest : List (List Nat))
    (h : chooseId m source bufs = some (id, rest)) : id ≠ "" := by
  by_cases hs : source = ""
  · obtain ⟨b, rfl⟩ := chooseId_generated m source bufs id rest h (Or.inl hs)
    exact generateId_ne_empty b
  · unfold chooseId at h
    simp [hs] at h
    rcases collisionLoop_generated m _ _ _ _ h with heq | ⟨b, rfl⟩
    · rw [heq]; exact hs
    · exact generateId_ne_empty b


/- ### Branch lemmas for the dispatcher step (shared helpers) -/

/-- Successful engagement: the step installs the chosen id and emits the
reply-channel send and the `proceed` write. -/
theorem dispatchStep_engage_ok (compile : String → Option Regex)
    (secret : String) (s : dispatcherState) (bufs : List (List Nat))
    (q : query) (cmd : commandBlock) (enc : Nat) (id : String)
    (rest : List (List Nat))
    (hv : validateQ q = true) (hty : q.qtype = "command")
    (hcmd : q.command = some cmd) (ha : cmd.action = "engage")
    (hchk : engageChk cmd q.source secret = Except.ok ())
    (hid : chooseId s.connMap q.source bufs = some (id, rest)) :
    dispatchStep compile secret s bufs ⟨q, some enc⟩ =
      ({ s with connMap := mapInsert s.connMap id enc }, rest,
        { noOut with engageResp := some id,
                     writes := [(enc, proceedQuery id)] }) := by
  unfold dispatchStep
  simp [hv, hty, hcmd, ha, hchk, hid]

/-- Failed engagement: empty id on the reply channel, a `terminate` write
carrying the failure reason, state untouched. -/
theorem dispatchStep_engage_fail (compile : String → Option Regex)
    (secret : String) (s : dispatcherState) (bufs : List (List Nat))
    (q : query) (cmd : commandBlock) (enc : Nat) (e : String)
    (hv : validateQ q = true) (hty : q.qtype = "command")
    (hcmd : q.command = some cmd) (ha : cmd.action = "engage")
    (hchk : engageChk cmd q.source secret = Except.error e) :
    dispatchStep compile secret s bufs ⟨q, some enc⟩ =
      (s, bufs,
        { noOut with engageResp := some "",
                     writes := [(enc, terminateQuery q.source e)] }) := by
  unfold dispatchStep
  simp [hv, hty, hcmd, ha, hchk]

/-- The `activeResponderConfig` the register branch builds (Go dispatcher
lines 110-124): owned by the registering connection's source id, with
`matchNext` set by scanning `options` for the literal "fallthrough". -/
def mkActive (q : query) (cmd : commandBlock) (rg : Regex) :
    activeResponderConfig :=
  { regex := rg, source := q.source, id := cmd.id,
    matchNext := cmd.options.contains "fallthrough",
    helpCmd := cmd.array.getD 0 "", help := cmd.array.getD 1 "" }

/-- The `helpInfo` the register branch builds before the classification
switch (Go dispatcher lines 126-129). -/
def mkHelp (ar : activeResponderConfig) : helpInfo :=
  { helpCmd := ar.helpCmd, helpMsg := ar.help,
    noPrefixFlag := false, mentionFlag := false }

/-- Valid registration whose pattern fails to compile: logged and dropped,
nothing changes and nothing is written back. -/
theorem dispatchStep_register_nocompile (compile : String → Option Regex)
    (secret : String) (s : dispatcherState) (bufs : List (List Nat))
    (q : query) (cmd : commandBlock) (enc : Option Nat)
    (hv : validateQ q = true) (hty : q.qtype = "command")
    (hcmd : q.command = some cmd) (ha : cmd.action = "register")
    (hchk : registerChk cmd = Except.ok ())
    (hcp : compile cmd.data = none) :
    dispatchStep compile secret s bufs ⟨q, enc⟩ = (s, bufs, noOut) := by
  unfold dispatchStep
  simp [hv, hty, hcmd, ha, hchk, hcp]

/-- Valid registration classified `prefix`: help entry plus prefix-bucket
insertion. -/
theorem dispatchStep_register_prefixCase (compile : String → Option Regex)
    (secret : String) (s : dispatcherState) (bufs : List (List Nat))
    (q : query) (cmd : commandBlock) (rg : Regex) (enc : Option Nat)
    (hv : validateQ q = true) (hty : q.qtype = "command")
    (hcmd : q.command = some cmd) (ha : cmd.action = "register")
    (hchk : registerChk cmd = Except.ok ())
    (hcp : compile cmd.data = some rg) (hct : cmd.ctype = "prefix") :
    dispatchStep compile secret s bufs ⟨q, enc⟩ =
      ({ s with helpList := s.helpList ++ [mkHelp (mkActive q cmd rg)],
                prefixAResponders := s.prefixAResponders ++ [mkActive q cmd rg] },
        bufs, noOut) := by
  unfold dispatchStep
  simp [hv, hty, hcmd, ha, hchk, hcp, hct, mkActive, mkHelp]

/-- Valid registration classified `noprefix`: help entry with the
`noPrefix` mark plus noprefix-bucket insertion. -/
theorem dispatchStep_register_noprefixCase (compile : String → Option Regex)
    (secret : String) (s : dispatcherState) (bufs : List (List Nat))
    (q : query) (cmd : commandBlock) (rg : Regex) (enc : Option Nat)
    (hv : validateQ q = true) (hty : q.qtype = "command")
    (hcmd : q.command = some cmd) (ha : cmd.action = "register")
    (hchk : registerChk cmd = Except.ok ())
    (hcp : compile cmd.data = some rg) (hct : cmd.ctype = "noprefix") :
    dispatchStep compile secret s bufs ⟨q, enc⟩ =
      ({ s with
          helpList := s.helpList ++
            [{ mkHelp (mkActive q cmd rg) with noPrefixFlag := true }],
          noPrefixAResponders := s.noPrefixAResponders ++ [mkActive q cmd rg] },
        bufs, noOut) := by
  unfold dispatchStep
  simp [hv, hty, hcmd, ha, hchk, hcp, hct, mkActive, mkHelp]

/-- Valid registration classified `mention`: help entry with the `mention`
mark plus mention-bucket insertion. -/
theorem dispatchStep_register_mentionCase (compile : String → Option Regex)
    (secret : String) (s : dispatcherState) (bufs : List (List Nat))
    (q : query) (cmd : commandBlock) (rg : Regex) (enc : Option Nat)
    (hv : validateQ q = true) (hty : q.qtype = "command")
    (hcmd : q.command = some cmd) (ha : cmd.action = "register")
    (hchk : registerChk cmd = Except.ok ())
    (hcp : compile cmd.data = some rg) (hct : cmd.ctype = "mention") :
    dispatchStep compile secret s bufs ⟨q, enc⟩ =
      ({ s with
          helpList := s.helpList ++
            [{ mkHelp (mkActive q cmd rg) with mentionFlag := true }],
          mentionAResponders := s.mentionAResponders ++ [mkActive q cmd rg] },
        bufs, noOut) := by
  unfold dispatchStep
  simp [hv, hty, hcmd, ha, hchk, hcp, hct, mkActive, mkHelp]

/-- Valid registration classified `unhandled`: bucket insertion only — the
switch case pushes no help entry. -/
theorem dispatchStep_register_unhandledCase (compile : String → Option Regex)
    (secret : String) (s : dispatcherState) (bufs : List (List Nat))
    (q : query) (cmd : commandBlock) (rg : Regex) (enc : Option Nat)
    (hv : validateQ q = true) (hty : q.qtype = "command")
    (hcmd : q.command = some cmd) (ha : cmd.action = "register")
    (hchk : registerChk cmd = Except.ok ())
    (hcp : compile cmd.data = some rg) (hct : cmd.ctype = "unhandled") :
    dispatchStep compile secret s bufs ⟨q, enc⟩ =
      ({ s with
          unhandledAResponders := s.unhandledAResponders ++ [mkActive q cmd rg] },
        bufs, noOut) := by
  unfold dispatchStep
  simp [hv, hty, hcmd, ha, hchk, hcp, hct, mkActive]

/-- A directed message whose destination is registered: forwarded verbatim
to that connection's encoder. -/
theorem dispatchStep_message_routed (compile : String → Option Regex)
    (secret : String) (s : dispatcherState) (bufs : List (List Nat))
    (q : query) (enc : Nat) (reqEnc : Option Nat)
    (hv : validateQ q = true) (hty : q.qtype = "message")
    (h1 : q.toDest ≠ "") (h2 : q.toDest ≠ "server")
    (henc : mapLookup s.connMap q.toDest = some enc) :
    dispatchStep compile secret s bufs ⟨q, reqEnc⟩ =
      (s, bufs, { noOut with writes := [(enc, q)] }) := by
  unfold dispatchStep
  simp [hv, hty, h1, h2, henc]

/-- A directed message whose destination is absent from the connection
table: logged and dropped. -/
theorem dispatchStep_message_unknown (compile : String → Option Regex)
    (secret : String) (s : dispatcherState) (bufs : List (List Nat))
    (q : query) (reqEnc : Option Nat)
    (hv : validateQ q = true) (hty : q.qtype = "message")
    (h1 : q.toDest ≠ "") (h2 : q.toDest ≠ "server")
    (henc : mapLookup s.connMap q.toDest = none) :
    dispatchStep compile secret s bufs ⟨q, reqEnc⟩ = (s, bufs, noOut) := by
  unfold dispatchStep
  simp [hv, hty, h1, h2, henc]

/-- Every branch of the dispatcher loop body — including the fatal
`logger.Error.Fatal` path, which terminates the whole process rather than
leaving the loop — ends in `continue` or falls to the next iteration;
no branch breaks out of the `for`. -/
theorem dispatchStep_control (compile : String → Option Regex)
    (secret : String) (s : dispatcherState) (bufs : List (List Nat))
    (req : dispatcherRequest) :
    (dispatchStep compile secret s bufs req).2.2.control = stepControl.next := by
  unfold dispatchStep
  dsimp only
  repeat' split
  all_goals simp [noOut]

/-- Keys of the connection table are never the empty string: the only
insertion installs a `chooseId` result. -/
theorem dispatchStep_keys_ne_empty (compile : String → Option Regex)
    (secret : String) (s : dispatcherState) (bufs : List (List Nat))
    (req : dispatcherRequest)
    (hs : ∀ p ∈ s.connMap, p.1 ≠ "") :
    ∀ p ∈ (dispatchStep compile secret s bufs req).1.connMap, p.1 ≠ "" := by
  intro p hp
  unfold dispatchStep at hp
  dsimp only at hp
  repeat' split at hp
  all_goals
    first
      | exact hs p hp
      | (simp only [mapErase] at hp
         exact hs p (List.mem_filter.mp hp).1)
      | (rename_i id rest hid
         simp only [mapInsert] at hp
         rcases List.mem_cons.mp hp with heq | hmem
         · rw [heq]
           exact chooseId_ne_empty _ _ _ _ _ hid
         · exact hs p (List.mem_filter.mp hmem).1)

/-- Running the dispatcher on any finite request prefix never reaches the
`quitChan <- true` send placed after the loop. -/
theorem dispatcherRun_no_quit (compile : String → Option Regex)
    (secret : String) :
    ∀ (reqs : List dispatcherRequest) (s : dispatcherState)
      (bufs : List (List Nat)),
      (dispatcherRun compile secret s bufs reqs).2 = false := by
  intro reqs
  induction reqs with
  | nil => intro s bufs; rfl
  | cons r rest ih =>
    intro s bufs
    unfold dispatcherRun
    simp only [dispatchStep_control]
    by_cases hf : (dispatchStep compile secret s bufs r).2.2.fatal
    · simp [hf]
    · simp [hf, ih]

/-- The non-empty-key invariant carries over whole runs. -/
theorem dispatcherRun_keys_ne_empty (compile : String → Option Regex)
    (secret : String) :
    ∀ (reqs : List dispatcherRequest) (s : dispatcherState)
      (bufs : List (List Nat)),
      (∀ p ∈ s.connMap, p.1 ≠ "") →
      ∀ p ∈ (dispatcherRun compile secret s bufs reqs).1.connMap, p.1 ≠ "" := by
  intro reqs
  induction reqs with
  | nil => intro s bufs hs; exact hs
  | cons r rest ih =>
    intro s bufs hs
    have hkeys := dispatchStep_keys_ne_empty compile secret s bufs r hs
    unfold dispatcherRun
    simp only [dispatchStep_control]
    by_cases hf : (dispatchStep compile secret s bufs r).2.2.fatal
    · simp only [hf, if_true]
      exact hkeys
    · simp only [hf]
      simp only [Bool.false_eq_true, if_false]
      exact ih _ _ hkeys

/- ### Startup fault characterisation -/

/-- The configuration faults of one passive responder that make startup
call `logger.Error.Fatal`: zero match patterns, a match or mention pattern
that does not compile, an empty `cmd`, missing help text, or missing
help-trigger commands. -/
def prFault (compile : String → Option Regex)
    (pr : passiveResponderConfig) : Prop :=
  pr.matchPats = [] ∨ (∃ p ∈ pr.matchPats, compile p = none) ∨
  (∃ p ∈ pr.mentionMatch, compile p = none) ∨ pr.cmd = "" ∨
  pr.help = "" ∨ pr.helpCmds = []

theorem compilePatterns_none_iff (compile : String → Option Regex) :
    ∀ l : List String,
      compilePatterns compile l = none ↔ ∃ p ∈ l, compile p = none := by
  intro l
  induction l with
  | nil => simp [compilePatterns]
  | cons p t ih =>
    unfold compilePatterns
    cases hp : compile p with
    | none =>
      constructor
      · intro _
        exact ⟨p, List.mem_cons_self p t, hp⟩
      · intro _
        rfl
    | some r =>
      cases ht : compilePatterns compile t with
      | none =>
        constructor
        · intro _
          obtain ⟨x, hx, hcx⟩ := ih.mp ht
          exact ⟨x, List.mem_cons_of_mem p hx, hcx⟩
        · intro _
          rfl
      | some rs =>
        constructor
        · intro h
          exact Option.noConfusion h
        · intro h
          obtain ⟨x, hx, hcx⟩ := h
          rcases List.mem_cons.mp hx with heq | hxt
          · rw [heq] at hcx
            rw [hcx] at hp
            cases hp
          · have hnone : compilePatterns compile t = none := ih.mpr ⟨x, hxt, hcx⟩
            rw [hnone] at ht
            cases ht

theorem compilePatterns_length (compile : String → Option Regex) :
    ∀ (l : List String) (rs : List Regex),
      compilePatterns compile l = some rs → rs.length = l.length := by
  intro l
  induction l with
  | nil =>
    intro rs h
    simp [compilePatterns] at h
    simp [h]
  | cons p t ih =>
    intro rs h
    unfold compilePatterns at h
    cases hp : compile p with
    | none => rw [hp] at h; cases h
    | some r =>
      rw [hp] at h
      cases ht : compilePatterns compile t with
      | none => rw [ht] at h; cases h
      | some rs' =>
        rw [ht] at h
        simp at h
        rw [← h]
        simp [ih rs' ht]

theorem startupStep_none_of_fault (compile : String → Option Regex)
    (st : startupState) (pr : passiveResponderConfig)
    (h : prFault compile pr) : startupStep compile st pr = none := by
  unfold startupStep
  by_cases h1 : pr.matchPats.length = 0
  · simp [h1]
  · simp only [h1, if_false]
    cases hm : compilePatterns compile pr.matchPats with
    | none => rfl
    | some regexes =>
      cases hmm : compilePatterns compile pr.mentionMatch with
      | none => rfl
      | some mRegexes =>
        by_cases hr : regexes.length = 0
        · simp [hr]
        · simp only [hr, if_false]
          by_cases hc : pr.cmd = ""
          · simp [hc]
          · simp only [hc, if_false]
            have hh : pr.help = "" ∨ pr.helpCmds.length = 0 := by
              rcases h with h | h | h | h | h | h
              · exact absurd (by rw [h]; rfl) h1
              · exact absurd ((compilePatterns_none_iff compile _).mpr h)
                  (by rw [hm]; intro hx; cases hx)
              · exact absurd ((compilePatterns_none_iff compile _).mpr h)
                  (by rw [hmm]; intro hx; cases hx)
              · exact absurd h hc
              · exact Or.inl h
              · exact Or.inr (by rw [h]; rfl)
            rw [if_pos hh]

theorem startupStep_isSome_of_nofault (compile : String → Option Regex)
    (st : startupState) (pr : passiveResponderConfig)
    (h : ¬ prFault compile pr) : startupStep compile st pr ≠ none := by
  unfold prFault at h
  push_neg at h
  obtain ⟨hne, hmn, hmmn, hc, hh, hcmds⟩ := h
  unfold startupStep
  have h1 : ¬ pr.matchPats.length = 0 := by
    intro h0
    exact hne (List.length_eq_zero.mp h0)
  simp only [h1, if_false]
  cases hm : compilePatterns compile pr.matchPats with
  | none =>
    obtain ⟨x, hx, hcx⟩ := (compilePatterns_none_iff compile _).mp hm
    exact absurd hcx (hmn x hx)
  | some regexes =>
    cases hmm : compilePatterns compile pr.mentionMatch with
    | none =>
      obtain ⟨x, hx, hcx⟩ := (compilePatterns_none_iff compile _).mp hmm
      exact absurd hcx (hmmn x hx)
    | some mRegexes =>
      have hr : ¬ regexes.length = 0 := by
        rw [compilePatterns_length compile _ _ hm]
        exact h1
      simp only [hr, if_false, hc, if_false]
      have hhc : ¬ (pr.help = "" ∨ pr.helpCmds.length = 0) := by
        intro hx
        rcases hx with hx | hx
        · exact hh hx
        · exact hcmds (List.length_eq_zero.mp hx)
      rw [if_neg hhc]
      simp

theorem startupStep_none_iff (compile : String → Option Regex)
    (st : startupState) (pr : passiveResponderConfig) :
    startupStep compile st pr = none ↔ prFault compile pr := by
  constructor
  · intro h
    by_contra hn
    exact startupStep_isSome_of_nofault compile st pr hn h
  · exact startupStep_none_of_fault compile st pr

theorem foldlM_startup_none_iff (compile : String → Option Regex) :
    ∀ (prs : List passiveResponderConfig) (st : startupState),
      List.foldlM (startupStep compile) st prs = none ↔
        ∃ pr ∈ prs, prFault compile pr := by
  intro prs
  induction prs with
  | nil => intro st; simp
  | cons pr t ih =>
    intro st
    rw [List.foldlM_cons]
    cases hstep : startupStep compile st pr with
    | none =>
      simp only [Option.bind_eq_bind, Option.none_bind]
      constructor
      · intro _
        exact ⟨pr, List.mem_cons_self pr t,
          (startupStep_none_iff compile st pr).mp hstep⟩
      · intro _
        trivial
    | some st' =>
      simp only [Option.bind_eq_bind, Option.some_bind]
      rw [ih st']
      constructor
      · rintro ⟨x, hx, hfx⟩
        exact ⟨x, List.mem_cons_of_mem pr hx, hfx⟩
      · rintro ⟨x, hx, hfx⟩
        rcases List.mem_cons.mp hx with heq | hxt
        · rw [← heq] at hstep
          rw [startupStep_none_of_fault compile st x hfx] at hstep
          cases hstep
        · exact ⟨x, hxt, hfx⟩

theorem startupAll_none_iff (compile : String → Option Regex) (c : config) :
    startupAll compile c = none ↔
      compile (helpPattern c.Help) = none ∨
        ∃ pr ∈ c.Responders, prFault compile pr := by
  by_cases hc : compile (helpPattern c.Help) = none
  · simp [startupAll, hc]
  · obtain ⟨r, hr⟩ := Option.ne_none_iff_exists'.mp hc
    simp only [startupAll, hr]
    rw [foldlM_startup_none_iff]
    constructor
    · exact Or.inr
    · intro h
      rcases h with h | h
      · exact Option.noConfusion h
      · exact h

/-- Bucket placement of one successfully compiled passive responder:
exactly one of the prefix/noprefix passive buckets receives it, selected
by the `NoPrefix` flag, and the mention bucket additionally receives it
exactly when the responder has mention patterns. -/
theorem startupStep_buckets (compile : String → Option Regex)
    (st : startupState) (pr : passiveResponderConfig)
    (regexes mRegexes : List Regex) (st' : startupState)
    (hm : compilePatterns compile pr.matchPats = some regexes)
    (hmm : compilePatterns compile pr.mentionMatch = some mRegexes)
    (hstep : startupStep compile st pr = some st') :
    (pr.noPrefixFlag = true →
       st'.noPrefixPResponders =
         st.noPrefixPResponders ++ [⟨pr, regexes, mRegexes⟩] ∧
       st'.prefixPResponders = st.prefixPResponders) ∧
    (pr.noPrefixFlag = false →
       st'.prefixPResponders =
         st.prefixPResponders ++ [⟨pr, regexes, mRegexes⟩] ∧
       st'.noPrefixPResponders = st.noPrefixPResponders) ∧
    (pr.mentionMatch = [] →
       st'.mentionPResponders = st.mentionPResponders) ∧
    (pr.mentionMatch ≠ [] →
       st'.mentionPResponders =
         st.mentionPResponders ++ [⟨pr, regexes, mRegexes⟩]) := by
  unfold startupStep at hstep
  by_cases h1 : pr.matchPats.length = 0
  · rw [if_pos h1] at hstep
    cases hstep
  · rw [if_neg h1] at hstep
    simp only [hm, hmm] at hstep
    by_cases hr : regexes.length = 0
    · rw [if_pos hr] at hstep
      cases hstep
    · rw [if_neg hr] at hstep
      by_cases hc : pr.cmd = ""
      · rw [if_pos hc] at hstep
        cases hstep
      · rw [if_neg hc] at hstep
        by_cases hh : pr.help = "" ∨ pr.helpCmds.length = 0
        · rw [if_pos hh] at hstep
          cases hstep
        · rw [if_neg hh] at hstep
          have hml : mRegexes.length = pr.mentionMatch.length :=
            compilePatterns_length compile _ _ hmm
          have hst := Option.some.inj hstep
          rw [← hst]
          cases hnp : pr.noPrefixFlag with
          | true =>
            refine ⟨fun _ => ?_, fun hfalse => absurd hfalse (by simp),
              fun hmm0 => ?_, fun hmm1 => ?_⟩
            · by_cases hm0 : mRegexes.length ≠ 0 <;> simp [hm0]
            · have hcond : ¬ mRegexes.length ≠ 0 := by rw [hml, hmm0]; simp
              simp [hcond]
            · have hcond : mRegexes.length ≠ 0 := by
                rw [hml]
                intro h0
                exact hmm1 (List.length_eq_zero.mp h0)
              simp [hcond]
          | false =>
            refine ⟨fun htrue => absurd htrue (by simp), fun _ => ?_,
              fun hmm0 => ?_, fun hmm1 => ?_⟩
            · by_cases hm0 : mRegexes.length ≠ 0 <;> simp [hm0]
            · have hcond : ¬ mRegexes.length ≠ 0 := by rw [hml, hmm0]; simp
              simp [hcond]
            · have hcond : mRegexes.length ≠ 0 := by
                rw [hml]
                intro h0
                exact hmm1 (List.length_eq_zero.mp h0)
              simp [hcond]

/- ### The claims -/

/-- C9: once started, the dispatcher never leaves its receive loop: every
branch of the loop body continues with the next iteration (the fatal path
terminates the whole process without leaving the loop normally), so a run
over any finite request prefix never reaches the `quitChan <- true` send
placed after the loop, and the program's normal-exit path through that
channel is never taken. -/
theorem claim_C9 :
    ∀ (compile : String → Option Regex) (secret : String)
      (s : dispatcherState) (bufs : List (List Nat))
      (req : dispatcherRequest) (reqs : List dispatcherRequest),
      (dispatchStep compile secret s bufs req).2.2.control = stepControl.next ∧
      (dispatcherRun compile secret s bufs reqs).2 = false :=
  fun compile secret s bufs req reqs =>
    ⟨dispatchStep_control compile secret s bufs req,
     dispatcherRun_no_quit compile secret reqs s bufs⟩

/-- C10: `generateId` always returns a string of exactly 16 lowercase
hexadecimal characters, whatever the random source delivered — including a
failed or short read, whose error the Go code ignores while hex-formatting
the zero-padded 8-byte buffer; consequently every key ever installed in
the connection table over any dispatcher run is a non-empty string, so the
empty string sent on the engagement reply channel unambiguously signals
failure and never collides with a real connection id. -/
theorem claim_C10 :
    (∀ read : List Nat, (generateId read).length = 16 ∧
       ∀ c ∈ (generateId read).toList, c ∈ hexChars) ∧
    (∀ (compile : String → Option Regex) (secret : String)
       (bufs : List (List Nat)) (reqs : List dispatcherRequest),
       ∀ p ∈ (dispatcherRun compile secret initialState bufs reqs).1.connMap,
         p.1 ≠ "") :=
  ⟨fun read => ⟨generateId_length read, generateId_chars_hex read⟩,
   fun compile secret bufs reqs =>
     dispatcherRun_keys_ne_empty compile secret reqs initialState bufs
       (fun p hp => absurd hp (List.not_mem_nil p))⟩

/-- C4: a message envelope whose `to` is non-empty and not "server" is
forwarded verbatim (the very same envelope) to the destination's encoder
when the destination id is a key of the connection table; when it is not a
key, the envelope is dropped after logging: no state change, nothing
written to any connection, no reply-channel send, no spawned work, and the
dispatcher continues with the next iteration. -/
theorem claim_C4 (compile : String → Option Regex) (secret : String)
    (s : dispatcherState) (bufs : List (List Nat)) (q : query)
    (reqEnc : Option Nat)
    (hv : validateQ q = true) (hty : q.qtype = "message")
    (h1 : q.toDest ≠ "") (h2 : q.toDest ≠ "server") :
    (∀ enc, mapLookup s.connMap q.toDest = some enc →
       dispatchStep compile secret s bufs ⟨q, reqEnc⟩ =
         (s, bufs, { noOut with writes := [(enc, q)] })) ∧
    (mapLookup s.connMap q.toDest = none →
       dispatchStep compile secret s bufs ⟨q, reqEnc⟩ = (s, bufs, noOut)) :=
  ⟨fun enc henc =>
     dispatchStep_message_routed compile secret s bufs q enc reqEnc
       hv hty h1 h2 henc,
   fun hnone =>
     dispatchStep_message_unknown compile secret s bufs q reqEnc
       hv hty h1 h2 hnone⟩

def c4query1 : query :=
  { qtype := "message", source := "a1", toDest := "dest",
    message := some { text := "hi", room := "lobby" }, command := none }

def c4query2 : query :=
  { qtype := "message", source := "a1", toDest := "ghost",
    message := some { text := "hi", room := "lobby" }, command := none }

def c4state : dispatcherState := { initialState with connMap := [("dest", 3)] }

theorem claim_C4_witness :
    dispatchStep (fun _ => none) "sec" c4state [] ⟨c4query1, none⟩ =
      (c4state, [], { noOut with writes := [(3, c4query1)] }) ∧
    dispatchStep (fun _ => none) "sec" c4state [] ⟨c4query2, none⟩ =
      (c4state, [], noOut) :=
  ⟨(claim_C4 (fun _ => none) "sec" c4state [] c4query1 none
      (by decide) (by decide) (by decide) (by decide)).1 3 (by decide),
   (claim_C4 (fun _ => none) "sec" c4state [] c4query2 none
      (by decide) (by decide) (by decide) (by decide)).2 (by decide)⟩

/-- C5: an engage command failing the shared-secret check sends the empty
string on the engagement reply channel, writes a `terminate` command whose
data field is the failure reason back over the socket, and leaves the
connection table — and every other piece of dispatcher state — unchanged. -/
theorem claim_C5 (compile : String → Option Regex) (secret : String)
    (s : dispatcherState) (bufs : List (List Nat)) (q : query)
    (cmd : commandBlock) (enc : Nat) (e : String)
    (hv : validateQ q = true) (hty : q.qtype = "command")
    (hcmd : q.command = some cmd) (ha : cmd.action = "engage")
    (hchk : engageChk cmd q.source secret = Except.error e) :
    dispatchStep compile secret s bufs ⟨q, some enc⟩ =
      (s, bufs, { noOut with engageResp := some "",
                             writes := [(enc, terminateQuery q.source e)] }) ∧
    (terminateQuery q.source e).command =
      some { action := "terminate", id := "", ctype := "", data := e,
             array := [], options := [] } :=
  ⟨dispatchStep_engage_fail compile secret s bufs q cmd enc e
     hv hty hcmd ha hchk, rfl⟩

def c5cmd : commandBlock :=
  { action := "engage", id := "", ctype := "responder", data := "wrong",
    array := [], options := [] }

def c5query : query :=
  { qtype := "command", source := "r9", toDest := "", message := none,
    command := some c5cmd }

theorem claim_C5_witness :
    dispatchStep (fun _ => none) "sec" initialState [] ⟨c5query, some 4⟩ =
      (initialState, [],
        { noOut with engageResp := some "",
                     writes := [(4, terminateQuery c5query.source "invalid credentials")] }) ∧
    (terminateQuery c5query.source "invalid credentials").command =
      some { action := "terminate", id := "", ctype := "",
             data := "invalid credentials", array := [], options := [] } :=
  claim_C5 (fun _ => none) "sec" initialState [] c5query c5cmd 4
    "invalid credentials" (by decide) (by decide) (by decide) (by decide)
    rfl

/-- C6: a register command whose pattern does not compile is dropped after
logging: the step leaves the whole state exactly as it was — no bucket
insertion, no help entry — and produces no write back to the registering
connection, no reply-channel send and no spawned work. -/
theorem claim_C6 (compile : String → Option Regex) (secret : String)
    (s : dispatcherState) (bufs : List (List Nat)) (q : query)
    (cmd : commandBlock) (enc : Option Nat)
    (hv : validateQ q = true) (hty : q.qtype = "command")
    (hcmd : q.command = some cmd) (ha : cmd.action = "register")
    (hchk : registerChk cmd = Except.ok ())
    (hcp : compile cmd.data = none) :
    dispatchStep compile secret s bufs ⟨q, enc⟩ = (s, bufs, noOut) :=
  dispatchStep_register_nocompile compile secret s bufs q cmd enc
    hv hty hcmd ha hchk hcp

def c6cmd : commandBlock :=
  { action := "register", id := "rid", ctype := "prefix", data := "([bad",
    array := ["hc", "help text"], options := [] }

def c6query : query :=
  { qtype := "command", source := "r1", toDest := "", message := none,
    command := some c6cmd }

theorem claim_C6_witness :
    dispatchStep (fun _ => none) "sec" initialState [] ⟨c6query, none⟩ =
      (initialState, [], noOut) :=
  claim_C6 (fun _ => none) "sec" initialState [] c6query c6cmd none
    (by decide) (by decide) (by decide) (by decide) rfl rfl

/-- C1: for an engage command that passes the shared-secret check — when
the client supplied no id, or the supplied id is already a key of the
connection table, the chosen id is a freshly generated string of 16
lowercase hexadecimal characters not present in the table; the chosen id
is installed in the connection table bound to the connection's encoder,
sent on the engagement reply channel, and written back to the socket in a
`proceed` command carrying it as data; an already-registered connection
holding the requested id keeps its entry unchanged. -/
theorem claim_C1 (compile : String → Option Regex) (secret : String)
    (s : dispatcherState) (bufs : List (List Nat)) (q : query)
    (cmd : commandBlock) (enc : Nat) (id : String) (rest : List (List Nat))
    (hv : validateQ q = true) (hty : q.qtype = "command")
    (hcmd : q.command = some cmd) (ha : cmd.action = "engage")
    (hchk : engageChk cmd q.source secret = Except.ok ())
    (hid : chooseId s.connMap q.source bufs = some (id, rest)) :
    dispatchStep compile secret s bufs ⟨q, some enc⟩ =
      ({ s with connMap := mapInsert s.connMap id enc }, rest,
        { noOut with engageResp := some id,
                     writes := [(enc, proceedQuery id)] }) ∧
    ((q.source = "" ∨ mapLookup s.connMap q.source ≠ none) →
       id.length = 16 ∧ (∀ c ∈ id.toList, c ∈ hexChars) ∧
       mapLookup s.connMap id = none) ∧
    mapLookup (mapInsert s.connMap id enc) id = some enc ∧
    (∀ e0, mapLookup s.connMap q.source = some e0 →
       mapLookup (mapInsert s.connMap id enc) q.source = some e0) ∧
    (proceedQuery id).command =
      some { action := "proceed", id := "", ctype := "", data := id,
             array := [], options := [] } := by
  refine ⟨dispatchStep_engage_ok compile secret s bufs q cmd enc id rest
    hv hty hcmd ha hchk hid, ?_, mapLookup_insert_self s.connMap id enc,
    ?_, rfl⟩
  · intro hcase
    obtain ⟨b, hb⟩ :=
      chooseId_generated s.connMap q.source bufs id rest hid hcase
    rw [hb]
    exact ⟨generateId_length b, generateId_chars_hex b, by
      rw [← hb]
      exact chooseId_fresh s.connMap q.source bufs id rest hid⟩
  · intro e0 he0
    have hne : q.source ≠ id := by
      intro heq
      rw [heq] at he0
      rw [chooseId_fresh s.connMap q.source bufs id rest hid] at he0
      cases he0
    rw [mapLookup_insert_ne s.connMap id q.source enc hne]
    exact he0

def c1cmd : commandBlock :=
  { action := "engage", id := "", ctype := "responder", data := "sec",
    array := [], options := [] }

def c1query : query :=
  { qtype := "command", source := "abc", toDest := "", message := none,
    command := some c1cmd }

def c1state : dispatcherState := { initialState with connMap := [("abc", 5)] }

theorem claim_C1_witness :
    dispatchStep (fun _ => none) "sec" c1state [[0]] ⟨c1query, some 7⟩ =
      ({ c1state with
          connMap := mapInsert c1state.connMap "0000000000000000" 7 }, [],
        { noOut with engageResp := some "0000000000000000",
                     writes := [(7, proceedQuery "0000000000000000")] }) ∧
    mapLookup c1state.connMap "0000000000000000" = none ∧
    mapLookup (mapInsert c1state.connMap "0000000000000000" 7) "abc" =
      some 5 :=
  have h := claim_C1 (fun _ => none) "sec" c1state [[0]] c1query c1cmd 7
    "0000000000000000" [] (by decide) (by decide) (by decide) (by decide)
    rfl (by decide)
  ⟨h.1, (h.2.1 (Or.inr (by decide))).2.2, h.2.2.2.1 5 (by decide)⟩

theorem cmdAction_setSource (q : query) (id : String) :
    cmdAction { q with source := id } = cmdAction q := rfl

/-- C2: for a post-handshake envelope from an adapter connection, the `to`
field of whatever is forwarded is cleared unless the envelope is a command
with action `info` (which keeps its `to`), and a `register` command is
dropped rather than forwarded; for a non-adapter (responder) connection an
envelope with empty `to` is dropped, as is a message-type envelope whose
`to` is "server".  Dropping means the read loop continues with the next
envelope. -/
theorem claim_C2 (id : String) (q : query) (cmd : commandBlock) :
    (q.qtype = "command" → q.command = some cmd → cmd.action = "register" →
       serveFilter true id q = serveAction.drop) ∧
    (∀ q2, serveFilter true id q = serveAction.forward q2 →
       (¬(q.qtype = "command" ∧ cmdAction q = "info") → q2.toDest = "") ∧
       (q.qtype = "command" ∧ cmdAction q = "info" →
          q2.toDest = q.toDest)) ∧
    (q.toDest = "" → serveFilter false id q = serveAction.drop) ∧
    (q.qtype = "message" → q.toDest = "server" →
       serveFilter false id q = serveAction.drop) := by
  by_cases hval : validateQ q = false
  · refine ⟨fun _ _ _ => ?_, fun q2 h => ?_, fun _ => ?_, fun _ _ => ?_⟩
    · simp [serveFilter, hval]
    · simp [serveFilter, hval] at h
    · simp [serveFilter, hval]
    · simp [serveFilter, hval]
  · have hv : validateQ q = true := by
      revert hval
      cases validateQ q <;> simp
    refine ⟨fun hqt hcmd ha => ?_, fun q2 h => ?_, fun h0 => ?_,
      fun hm hsrv => ?_⟩
    · simp [serveFilter, hv, hqt, hcmd, ha, cmdAction, cmdOptAction]
    · by_cases hA : q.qtype = "command"
      · by_cases hB : cmdAction q = "info"
        · refine ⟨fun hn => absurd ⟨hA, hB⟩ hn, fun _ => ?_⟩
          simp only [cmdAction] at hB
          simp [serveFilter, hv, hA, hB, cmdAction] at h
          subst h
          rfl
        · simp only [cmdAction] at hB
          by_cases hreg : cmdOptAction q.command = "register"
          · simp [serveFilter, hv, hA, hB, hreg, cmdAction] at h
          · simp [serveFilter, hv, hA, hB, hreg, cmdAction] at h
            refine ⟨fun _ => ?_, fun hinfo => absurd hinfo.2 (by
              simp only [cmdAction]
              exact hB)⟩
            subst h
            rfl
      · refine ⟨fun _ => ?_, fun hinfo => absurd hinfo.1 hA⟩
        simp [serveFilter, hv, hA, cmdAction] at h
        subst h
        rfl
    · simp [serveFilter, hv, h0]
    · simp [serveFilter, hv, hm, hsrv]

def c2cmd : commandBlock :=
  { action := "register", id := "r", ctype := "prefix", data := "p",
    array := ["a", "b"], options := [] }

def c2regQuery : query :=
  { qtype := "command", source := "x", toDest := "srv", message := none,
    command := some c2cmd }

def c2msgQuery : query :=
  { qtype := "message", source := "x", toDest := "server",
    message := some { text := "t", room := "r" }, command := none }

theorem claim_C2_witness :
    serveFilter true "a1" c2regQuery = serveAction.drop ∧
    serveFilter false "r1" c2msgQuery = serveAction.drop :=
  ⟨(claim_C2 "a1" c2regQuery c2cmd).1 rfl rfl rfl,
   (claim_C2 "r1" c2msgQuery c2cmd).2.2.2 rfl rfl⟩

def c3cmd : commandBlock :=
  { action := "register", id := "rid", ctype := "unhandled", data := "pat",
    array := ["hc", "ht"], options := [] }

def c3query : query :=
  { qtype := "command", source := "resp1", toDest := "", message := none,
    command := some c3cmd }

/-- C3 counterexample: a `register` command that passes validation, whose
pattern compiles and whose classification is `unhandled` is inserted into
the unhandled bucket yet appends NO HelpInfo entry, refuting the claim
that the HelpInfo append happens for every one of the four
classifications including `unhandled`. -/
theorem claim_C3_counterexample :
    (dispatchStep (fun p => some ⟨p⟩) "sec" initialState []
        ⟨c3query, none⟩).1.helpList = [] ∧
    (dispatchStep (fun p => some ⟨p⟩) "sec" initialState []
        ⟨c3query, none⟩).1.unhandledAResponders =
      [mkActive c3query c3cmd ⟨"pat"⟩] := by
  constructor <;> rfl

/-- C3 (amended): for every register command that passes validation and
whose pattern compiles, the built config's source is the registering
connection's id and its matchNext flag is true iff `options` contains the
literal "fallthrough"; for classifications `prefix`, `noprefix` and
`mention` a HelpInfo entry (with noPrefix set for `noprefix` and mention
set for `mention`) is appended and the config is appended to the matching
bucket; for classification `unhandled` the config is appended to the
unhandled bucket and no HelpInfo entry is appended. -/
theorem claim_C3_amended (compile : String → Option Regex) (secret : String)
    (s : dispatcherState) (bufs : List (List Nat)) (q : query)
    (cmd : commandBlock) (rg : Regex) (enc : Option Nat)
    (hv : validateQ q = true) (hty : q.qtype = "command")
    (hcmd : q.command = some cmd) (ha : cmd.action = "register")
    (hchk : registerChk cmd = Except.ok ())
    (hcp : compile cmd.data = some rg) :
    (mkActive q cmd rg).source = q.source ∧
    ((mkActive q cmd rg).matchNext = true ↔ "fallthrough" ∈ cmd.options) ∧
    (cmd.ctype = "prefix" →
       dispatchStep compile secret s bufs ⟨q, enc⟩ =
         ({ s with
             helpList := s.helpList ++ [mkHelp (mkActive q cmd rg)],
             prefixAResponders := s.prefixAResponders ++ [mkActive q cmd rg] },
           bufs, noOut)) ∧
    (cmd.ctype = "noprefix" →
       dispatchStep compile secret s bufs ⟨q, enc⟩ =
         ({ s with
             helpList := s.helpList ++
               [{ mkHelp (mkActive q cmd rg) with noPrefixFlag := true }],
             noPrefixAResponders :=
               s.noPrefixAResponders ++ [mkActive q cmd rg] },
           bufs, noOut)) ∧
    (cmd.ctype = "mention" →
       dispatchStep compile secret s bufs ⟨q, enc⟩ =
         ({ s with
             helpList := s.helpList ++
               [{ mkHelp (mkActive q cmd rg) with mentionFlag := true }],
             mentionAResponders :=
               s.mentionAResponders ++ [mkActive q cmd rg] },
           bufs, noOut)) ∧
    (cmd.ctype = "unhandled" →
       dispatchStep compile secret s bufs ⟨q, enc⟩ =
         ({ s with
             unhandledAResponders :=
               s.unhandledAResponders ++ [mkActive q cmd rg] },
           bufs, noOut) ∧
       (dispatchStep compile secret s bufs ⟨q, enc⟩).1.helpList =
         s.helpList) := by
  refine ⟨rfl, by simp [mkActive, List.elem_iff], fun hct => ?_, fun hct => ?_,
    fun hct => ?_, fun hct => ?_⟩
  · exact dispatchStep_register_prefixCase compile secret s bufs q cmd rg enc
      hv hty hcmd ha hchk hcp hct
  · exact dispatchStep_register_noprefixCase compile secret s bufs q cmd rg enc
      hv hty hcmd ha hchk hcp hct
  · exact dispatchStep_register_mentionCase compile secret s bufs q cmd rg enc
      hv hty hcmd ha hchk hcp hct
  · have h := dispatchStep_register_unhandledCase compile secret s bufs q cmd
      rg enc hv hty hcmd ha hchk hcp hct
    exact ⟨h, by rw [h]⟩

def c3pcmd : commandBlock :=
  { action := "register", id := "rid", ctype := "noprefix", data := "pat",
    array := ["hc", "ht"], options := ["fallthrough"] }

def c3pquery : query :=
  { qtype := "command", source := "resp1", toDest := "", message := none,
    command := some c3pcmd }

theorem claim_C3_amended_witness :
    (mkActive c3pquery c3pcmd ⟨"pat"⟩).source = "resp1" ∧
    (mkActive c3pquery c3pcmd ⟨"pat"⟩).matchNext = true ∧
    dispatchStep (fun p => some ⟨p⟩) "sec" initialState []
        ⟨c3pquery, none⟩ =
      ({ initialState with
          helpList :=
            [{ mkHelp (mkActive c3pquery c3pcmd ⟨"pat"⟩) with
                noPrefixFlag := true }],
          noPrefixAResponders := [mkActive c3pquery c3pcmd ⟨"pat"⟩] },
        [], noOut) :=
  have h := claim_C3_amended (fun p => some ⟨p⟩) "sec" initialState []
    c3pquery c3pcmd ⟨"pat"⟩ none (by decide) (by decide) (by decide)
    (by decide) rfl rfl
  ⟨h.1, h.2.1.mpr (by decide), h.2.2.2.1 rfl⟩

def c7pr : passiveResponderConfig :=
  { name := "both", matchPats := ["a"], mentionMatch := ["b"],
    noPrefixFlag := false, fallThrough := false, cmd := "run", args := [],
    help := "h", helpCmds := ["hc"], helpMentionCmds := [] }

def c7compiled : compiledPassive :=
  { pconf := c7pr, regex := [⟨"a"⟩], mRegex := [⟨"b"⟩] }

/-- C7 counterexample: a passive responder with a mention pattern and
`NoPrefix` unset is pushed into BOTH the prefix passive bucket and the
mention passive bucket by startup, refuting the claim that every responder
belongs to exactly one bucket and that membership in one bucket excludes
membership in any other. -/
theorem claim_C7_counterexample :
    (startupAll (fun p => some ⟨p⟩)
        { Help := "help", Secret := "s", Responders := [c7pr] }).map
        (fun st => (st.prefixPResponders, st.noPrefixPResponders,
          st.mentionPResponders))
      = some ([c7compiled], [], [c7compiled]) := rfl

/-- C7 (amended): every active responder created by a valid register
command is appended to exactly one of the four active buckets, the one
selected by the command's `type`, the other three being left unchanged;
every passive responder compiled at startup is placed in exactly one of
the prefix/no-prefix passive buckets according to its `NoPrefix` flag, and
is additionally placed in the mention bucket iff it has mention patterns —
so mention-bucket membership does not exclude prefix/no-prefix
membership. -/
theorem claim_C7_amended :
    (∀ (compile : String → Option Regex) (st : startupState)
        (pr : passiveResponderConfig) (regexes mRegexes : List Regex)
        (st' : startupState),
        compilePatterns compile pr.matchPats = some regexes →
        compilePatterns compile pr.mentionMatch = some mRegexes →
        startupStep compile st pr = some st' →
        (pr.noPrefixFlag = true →
           st'.noPrefixPResponders =
             st.noPrefixPResponders ++ [⟨pr, regexes, mRegexes⟩] ∧
           st'.prefixPResponders = st.prefixPResponders) ∧
        (pr.noPrefixFlag = false →
           st'.prefixPResponders =
             st.prefixPResponders ++ [⟨pr, regexes, mRegexes⟩] ∧
           st'.noPrefixPResponders = st.noPrefixPResponders) ∧
        (pr.mentionMatch = [] →
           st'.mentionPResponders = st.mentionPResponders) ∧
        (pr.mentionMatch ≠ [] →
           st'.mentionPResponders =
             st.mentionPResponders ++ [⟨pr, regexes, mRegexes⟩])) ∧
    (∀ (compile : String → Option Regex) (secret : String)
        (s : dispatcherState) (bufs : List (List Nat)) (q : query)
        (cmd : commandBlock) (rg : Regex) (enc : Option Nat),
        validateQ q = true → q.qtype = "command" → q.command = some cmd →
        cmd.action = "register" → registerChk cmd = Except.ok () →
        compile cmd.data = some rg →
        ((cmd.ctype = "prefix" →
            (dispatchStep compile secret s bufs ⟨q, enc⟩).1.prefixAResponders =
              s.prefixAResponders ++ [mkActive q cmd rg] ∧
            (dispatchStep compile secret s bufs ⟨q, enc⟩).1.noPrefixAResponders =
              s.noPrefixAResponders ∧
            (dispatchStep compile secret s bufs ⟨q, enc⟩).1.mentionAResponders =
              s.mentionAResponders ∧
            (dispatchStep compile secret s bufs ⟨q, enc⟩).1.unhandledAResponders =
              s.unhandledAResponders) ∧
         (cmd.ctype = "noprefix" →
            (dispatchStep compile secret s bufs ⟨q, enc⟩).1.noPrefixAResponders =
              s.noPrefixAResponders ++ [mkActive q cmd rg] ∧
            (dispatchStep compile secret s bufs ⟨q, enc⟩).1.prefixAResponders =
              s.prefixAResponders ∧
            (dispatchStep compile secret s bufs ⟨q, enc⟩).1.mentionAResponders =
              s.mentionAResponders ∧
            (dispatchStep compile secret s bufs ⟨q, enc⟩).1.unhandledAResponders =
              s.unhandledAResponders) ∧
         (cmd.ctype = "mention" →
            (dispatchStep compile secret s bufs ⟨q, enc⟩).1.mentionAResponders =
              s.mentionAResponders ++ [mkActive q cmd rg] ∧
            (dispatchStep compile secret s bufs ⟨q, enc⟩).1.prefixAResponders =
              s.prefixAResponders ∧
            (dispatchStep compile secret s bufs ⟨q, enc⟩).1.noPrefixAResponders =
              s.noPrefixAResponders ∧
            (dispatchStep compile secret s bufs ⟨q, enc⟩).1.unhandledAResponders =
              s.unhandledAResponders) ∧
         (cmd.ctype = "unhandled" →
            (dispatchStep compile secret s bufs ⟨q, enc⟩).1.unhandledAResponders =
              s.unhandledAResponders ++ [mkActive q cmd rg] ∧
            (dispatchStep compile secret s bufs ⟨q, enc⟩).1.prefixAResponders =
              s.prefixAResponders ∧
            (dispatchStep compile secret s bufs ⟨q, enc⟩).1.noPrefixAResponders =
              s.noPrefixAResponders ∧
            (dispatchStep compile secret s bufs ⟨q, enc⟩).1.mentionAResponders =
              s.mentionAResponders))) := by
  constructor
  · intro compile st pr regexes mRegexes st' hm hmm hstep
    exact startupStep_buckets compile st pr regexes mRegexes st' hm hmm hstep
  · intro compile secret s bufs q cmd rg enc hv hty hcmd ha hchk hcp
    refine ⟨fun hct => ?_, fun hct => ?_, fun hct => ?_, fun hct => ?_⟩
    · rw [dispatchStep_register_prefixCase compile secret s bufs q cmd rg enc
        hv hty hcmd ha hchk hcp hct]
      exact ⟨rfl, rfl, rfl, rfl⟩
    · rw [dispatchStep_register_noprefixCase compile secret s bufs q cmd rg enc
        hv hty hcmd ha hchk hcp hct]
      exact ⟨rfl, rfl, rfl, rfl⟩
    · rw [dispatchStep_register_mentionCase compile secret s bufs q cmd rg enc
        hv hty hcmd ha hchk hcp hct]
      exact ⟨rfl, rfl, rfl, rfl⟩
    · rw [dispatchStep_register_unhandledCase compile secret s bufs q cmd rg enc
        hv hty hcmd ha hchk hcp hct]
      exact ⟨rfl, rfl, rfl, rfl⟩

def c7state0 : startupState :=
  { prefixPResponders := [c7compiled], noPrefixPResponders := [],
    mentionPResponders := [c7compiled],
    helpList := [{ helpCmd := "hc", helpMsg := "h", noPrefixFlag := false,
                   mentionFlag := false }] }

def c7acmd : commandBlock :=
  { action := "register", id := "rid", ctype := "mention", data := "pp",
    array := ["hc", "ht"], options := [] }

def c7aquery : query :=
  { qtype := "command", source := "resp2", toDest := "", message := none,
    command := some c7acmd }

theorem claim_C7_amended_witness :
    (c7state0.prefixPResponders =
       emptyStartup.prefixPResponders ++ [c7compiled] ∧
     c7state0.noPrefixPResponders = emptyStartup.noPrefixPResponders) ∧
    c7state0.mentionPResponders =
      emptyStartup.mentionPResponders ++ [c7compiled] ∧
    (dispatchStep (fun p => some ⟨p⟩) "sec" initialState []
        ⟨c7aquery, none⟩).1.mentionAResponders =
      initialState.mentionAResponders ++ [mkActive c7aquery c7acmd ⟨"pp"⟩] :=
  have h1 := claim_C7_amended.1 (fun p => some ⟨p⟩) emptyStartup c7pr
    [⟨"a"⟩] [⟨"b"⟩] c7state0 rfl rfl (by decide)
  have h2 := claim_C7_amended.2 (fun p => some ⟨p⟩) "sec" initialState []
    c7aquery c7acmd ⟨"pp"⟩ none (by decide) (by decide) (by decide)
    (by decide) rfl rfl
  ⟨h1.2.1 rfl, h1.2.2.2 (by decide), (h2.2.2.1 rfl).1⟩

def c8pr : passiveResponderConfig :=
  { name := "r", matchPats := ["^ping$"], mentionMatch := [],
    noPrefixFlag := false, fallThrough := false, cmd := "run", args := [],
    help := "does things", helpCmds := [], helpMentionCmds := [] }

/-- C8 counterexample: a passive responder that HAS help text but has no
help-trigger commands does not pass startup — the code exits fatally on
`pr.Help == "" || len(pr.HelpCmds) == 0` — refuting the claim that only a
responder lacking both fails and that one with help text but no
help-trigger commands passes. -/
theorem claim_C8_counterexample :
    c8pr.help ≠ "" ∧ c8pr.matchPats ≠ [] ∧ c8pr.cmd ≠ "" ∧
    c8pr.helpCmds = [] ∧
    startupAll (fun p => some ⟨p⟩)
      { Help := "help", Secret := "s", Responders := [c8pr] } = none := by
  refine ⟨by decide, by decide, by decide, rfl, rfl⟩

/-- C8 (amended): startup terminates the process fatally if and only if
the help keyword pattern fails to compile or some passive responder has a
configuration fault — zero match patterns, a match or mention pattern that
does not compile, an empty `cmd`, missing help text, or missing
help-trigger commands (either of the last two alone is fatal). -/
theorem claim_C8 (compile : String → Option Regex) (c : config) :
    startupAll compile c = none ↔
      compile (helpPattern c.Help) = none ∨
        ∃ pr ∈ c.Responders, prFault compile pr :=
  startupAll_none_iff compile c

theorem claim_C8_witness :
    startupAll (fun p => some ⟨p⟩)
      { Help := "help", Secret := "s", Responders := [c8pr] } = none :=
  (claim_C8 (fun p => some ⟨p⟩)
      { Help := "help", Secret := "s", Responders := [c8pr] }).mpr
    (Or.inr ⟨c8pr, by decide,
      Or.inr (Or.inr (Or.inr (Or.inr (Or.inr rfl))))⟩)

theorem claim_C9_witness :
    (dispatchStep (fun _ => none) "s" initialState []
        ⟨c2msgQuery, none⟩).2.2.control = stepControl.next ∧
    (dispatcherRun (fun _ => none) "s" initialState []
        [⟨c2msgQuery, none⟩]).2 = false :=
  claim_C9 (fun _ => none) "s" initialState [] ⟨c2msgQuery, none⟩
    [⟨c2msgQuery, none⟩]

def c10cmd : commandBlock :=
  { action := "engage", id := "", ctype := "adapter", data := "sec",
    array := [], options := [] }

def c10query : query :=
  { qtype := "command", source := "", toDest := "", message := none,
    command := some c10cmd }

theorem claim_C10_witness :
    (generateId []).length = 16 ∧
    ("0000000000000000", 7).1 ≠ "" :=
  ⟨(claim_C10.1 []).1,
   claim_C10.2 (fun _ => none) "sec" [[0]] [⟨c10query, some 7⟩]
     ("0000000000000000", 7) (by decide)⟩
